import Mathlib

/-!
Shallow embedding of the concert ticket booking chaincode (src/main.go).

The world state is a key-value store from string keys to stored entity
records. Each public operation of the chaincode is embedded as a pure
function from a store (and its string arguments) to an error-or-unit
result paired with the post-state store. Error paths return the input
store unchanged, mirroring the fact that the Go code only calls PutState
on its success path.

Go's `TicketStatus` and `ParticipantType` are string types, so status and
type fields are embedded as `String` with named constants for the
declared values.
-/

deriving instance DecidableEq for Except

namespace TicketBooking

/-- TicketStatus constant `Available` (src/main.go line 22). -/
def Available : String := "Available"

/-- TicketStatus constant `Sold` (src/main.go line 23). -/
def Sold : String := "Sold"

/-- TicketStatus constant `Resold` (src/main.go line 24). -/
def Resold : String := "Resold"

/-- TicketStatus constant `Used` (src/main.go line 25). -/
def Used : String := "Used"

/-- ParticipantType constant `Member` (src/main.go line 14). -/
def Member : String := "Member"

/-- ParticipantType constant `EventHost` (src/main.go line 15). -/
def EventHost : String := "EventHost"

/-- Participant record (src/main.go lines 29-33); JSON fields ID, name, type. -/
structure Participant where
  ID : String
  Name : String
  «Type» : String
  deriving DecidableEq, Repr

/-- Event record (src/main.go lines 36-43); JSON fields ID, name, hostID,
date, location, tickets. -/
structure Event where
  ID : String
  Name : String
  HostID : String
  Date : String
  Location : String
  Tickets : List String
  deriving DecidableEq, Repr

/-- Ticket record (src/main.go lines 46-51); JSON fields ID, eventID,
status, owner. -/
structure Ticket where
  ID : String
  EventID : String
  Status : String
  Owner : String
  deriving DecidableEq, Repr

/-- A stored record is the JSON encoding of one of the three entities. -/
inductive Entity where
  | participant (p : Participant)
  | event (e : Event)
  | ticket (t : Ticket)
  deriving DecidableEq, Repr

/-- Error taxonomy of the chaincode's fmt.Errorf return values:
key absent, status precondition violated, ticket not a member of the
event, or stored bytes not decodable. -/
inductive ChainErr where
  | notFound (key : String)
  | invalidState (key : String)
  | membership (ticketID eventID : String)
  | codec
  deriving DecidableEq, Repr

/-- The world state: GetState returns `none` for an absent key. -/
abbrev Store := String → Option Entity

/-- PutState (ctx.GetStub().PutState): upsert at a key. -/
def putState (s : Store) (key : String) (e : Entity) : Store :=
  fun k => if k = key then some e else s k

/-- bytesToTicket (src/main.go lines 295-301): json.Unmarshal of the
GetState result into a Ticket. Unmarshal of nil bytes (absent key) fails;
unmarshal of another entity's JSON succeeds, filling only the fields
whose JSON names Ticket shares (just `ID`), leaving the rest zero. -/
def bytesToTicket : Option Entity → Except ChainErr Ticket
  | none => Except.error ChainErr.codec
  | some (Entity.ticket t) => Except.ok t
  | some (Entity.event e) => Except.ok ⟨e.ID, "", "", ""⟩
  | some (Entity.participant p) => Except.ok ⟨p.ID, "", "", ""⟩

/-- bytesToEvent (src/main.go lines 280-286): json.Unmarshal of the
GetState result into an Event. An absent key's nil bytes fail; another
entity's JSON fills only the shared field names (`ID`, and `name` from
Participant), leaving the rest zero (a nil tickets slice is the empty
sequence). -/
def bytesToEvent : Option Entity → Except ChainErr Event
  | none => Except.error ChainErr.codec
  | some (Entity.event e) => Except.ok e
  | some (Entity.ticket t) => Except.ok ⟨t.ID, "", "", "", "", []⟩
  | some (Entity.participant p) => Except.ok ⟨p.ID, p.Name, "", "", "", []⟩

/-- RegisterParticipant (src/main.go lines 66-81): unconditional upsert of
a Participant record under participantID. -/
def RegisterParticipant (s : Store) (participantID name participantType : String) :
    Except ChainErr Unit × Store :=
  (Except.ok (), putState s participantID (Entity.participant ⟨participantID, name, participantType⟩))

/-- CreateEvent (src/main.go lines 84-102): unconditional upsert of an
Event record with an empty tickets sequence under eventID. -/
def CreateEvent (s : Store) (eventID eventName hostID eventDate location : String) :
    Except ChainErr Unit × Store :=
  (Except.ok (), putState s eventID (Entity.event ⟨eventID, eventName, hostID, eventDate, location, []⟩))

/-- SellTicket (src/main.go lines 142-172): read the ticket (absent key
fails), decode, require status Available, then write back with status
Sold and owner set to the participant. -/
def SellTicket (s : Store) (ticketID participantID : String) :
    Except ChainErr Unit × Store :=
  match s ticketID with
  | none => (Except.error (ChainErr.notFound ticketID), s)
  | some e =>
    match bytesToTicket (some e) with
    | Except.error er => (Except.error er, s)
    | Except.ok t =>
      if t.Status ≠ Available then
        (Except.error (ChainErr.invalidState ticketID), s)
      else
        (Except.ok (), putState s ticketID (Entity.ticket { t with Status := Sold, Owner := participantID }))

/-- ResellTicket (src/main.go lines 175-205): read the ticket (absent key
fails), decode, require status Sold, then write back with status Resold
and owner set to the new owner. -/
def ResellTicket (s : Store) (ticketID newOwnerID : String) :
    Except ChainErr Unit × Store :=
  match s ticketID with
  | none => (Except.error (ChainErr.notFound ticketID), s)
  | some e =>
    match bytesToTicket (some e) with
    | Except.error er => (Except.error er, s)
    | Except.ok t =>
      if t.Status ≠ Sold then
        (Except.error (ChainErr.invalidState ticketID), s)
      else
        (Except.ok (), putState s ticketID (Entity.ticket { t with Status := Resold, Owner := newOwnerID }))

/-- The membership loop of UseTicket (src/main.go lines 241-253): walk the
event's tickets sequence; at the first member equal to the decoded
ticket's ID field, write the ticket back with status Used under that
member (the loop variable shadows the ticketID parameter, so the write
key is the member, i.e. the record's ID field); if no member matches,
fall through to the membership error (line 255). -/
def useLoop (s : Store) (t : Ticket) (ticketID eventID : String) :
    List String → Except ChainErr Unit × Store
  | [] => (Except.error (ChainErr.membership ticketID eventID), s)
  | m :: rest =>
    if m = t.ID then
      (Except.ok (), putState s m (Entity.ticket { t with Status := Used }))
    else
      useLoop s t ticketID eventID rest

/-- UseTicket (src/main.go lines 208-256): read the ticket (absent key
fails), decode, require status Sold or Resold, then read the event
(absent key fails), decode, and run the membership loop. -/
def UseTicket (s : Store) (ticketID eventID : String) :
    Except ChainErr Unit × Store :=
  match s ticketID with
  | none => (Except.error (ChainErr.notFound ticketID), s)
  | some te =>
    match bytesToTicket (some te) with
    | Except.error er => (Except.error er, s)
    | Except.ok t =>
      if t.Status ≠ Sold ∧ t.Status ≠ Resold then
        (Except.error (ChainErr.invalidState ticketID), s)
      else
        match s eventID with
        | none => (Except.error (ChainErr.notFound eventID), s)
        | some ee =>
          match bytesToEvent (some ee) with
          | Except.error er => (Except.error er, s)
          | Except.ok ev => useLoop s t ticketID eventID ev.Tickets

/-- The per-member loop of ListAvailableTickets (src/main.go lines
120-136): decode each member's GetState result (an absent member's nil
bytes make the decode fail, aborting the whole query), and collect the
decoded ticket's ID field when its status is Available. -/
def listLoop (s : Store) : List String → Except ChainErr (List String)
  | [] => Except.ok []
  | ticketID :: rest =>
    match bytesToTicket (s ticketID) with
    | Except.error er => Except.error er
    | Except.ok t =>
      match listLoop s rest with
      | Except.error er => Except.error er
      | Except.ok tail =>
        Except.ok (if t.Status = Available then t.ID :: tail else tail)

/-- ListAvailableTickets (src/main.go lines 105-139): read the event
(absent key fails), decode, then run the per-member loop over the
event's tickets sequence. The query performs no writes. -/
def ListAvailableTickets (s : Store) (eventID : String) :
    Except ChainErr (List String) :=
  match s eventID with
  | none => Except.error (ChainErr.notFound eventID)
  | some e =>
    match bytesToEvent (some e) with
    | Except.error er => Except.error er
    | Except.ok ev => listLoop s ev.Tickets

/-- Ticket invariant of the spec's data model: owner is non-empty iff
status is Sold, Resold or Used. -/
def TicketInv (t : Ticket) : Prop :=
  t.Owner ≠ "" ↔ (t.Status = Sold ∨ t.Status = Resold ∨ t.Status = Used)

instance (t : Ticket) : Decidable (TicketInv t) := by
  unfold TicketInv; infer_instance

/-- Store-wide invariant: every stored ticket record satisfies TicketInv. -/
def StoreInv (s : Store) : Prop :=
  ∀ k t, s k = some (Entity.ticket t) → TicketInv t

/-- Modelled from the spec's words for comparison with the code (spec 4.1:
the query "returns, in the Event's tickets order, the IDs of member
tickets whose status == Available", read as the sequence entries whose
stored status is Available). -/
def specListAvailable (s : Store) (ev : Event) : List String :=
  ev.Tickets.filter fun m =>
    match s m with
    | some (Entity.ticket t) => t.Status == Available
    | _ => false

/-! ## Basic store lemmas -/

theorem putState_same (s : Store) (key : String) (e : Entity) :
    putState s key e key = some e := by
  simp [putState]

theorem putState_other (s : Store) (key k : String) (e : Entity) (h : k ≠ key) :
    putState s key e k = s k := by
  simp [putState, h]

/-! ## Invariant preservation helpers -/

theorem storeInv_put_ticket {s : Store} (hs : StoreInv s) {t : Ticket}
    (ht : TicketInv t) (key : String) :
    StoreInv (putState s key (Entity.ticket t)) := by
  intro k u h
  unfold putState at h
  split at h
  · simp only [Option.some.injEq, Entity.ticket.injEq] at h
    exact h ▸ ht
  · exact hs k u h

theorem storeInv_put_event {s : Store} (hs : StoreInv s) (key : String) (ev : Event) :
    StoreInv (putState s key (Entity.event ev)) := by
  intro k u h
  unfold putState at h
  split at h
  · simp at h
  · exact hs k u h

theorem storeInv_put_participant {s : Store} (hs : StoreInv s) (key : String) (q : Participant) :
    StoreInv (putState s key (Entity.participant q)) := by
  intro k u h
  unfold putState at h
  split at h
  · simp at h
  · exact hs k u h

/-! ## SellTicket characterization -/

theorem sellTicket_absent {s : Store} {k : String} (p : String) (h : s k = none) :
    SellTicket s k p = (Except.error (ChainErr.notFound k), s) := by
  unfold SellTicket
  rw [h]

theorem sellTicket_notAvailable {s : Store} {k : String} (p : String) {t : Ticket}
    (h : s k = some (Entity.ticket t)) (hst : t.Status ≠ Available) :
    SellTicket s k p = (Except.error (ChainErr.invalidState k), s) := by
  unfold SellTicket
  rw [h]
  simp only [bytesToTicket]
  rw [if_pos hst]

theorem sellTicket_available {s : Store} {k : String} (p : String) {t : Ticket}
    (h : s k = some (Entity.ticket t)) (hst : t.Status = Available) :
    SellTicket s k p =
      (Except.ok (), putState s k (Entity.ticket ⟨t.ID, t.EventID, Sold, p⟩)) := by
  unfold SellTicket
  rw [h]
  simp only [bytesToTicket]
  rw [if_neg (not_not_intro hst)]

/-! ## ResellTicket characterization -/

theorem resellTicket_absent {s : Store} {k : String} (p : String) (h : s k = none) :
    ResellTicket s k p = (Except.error (ChainErr.notFound k), s) := by
  unfold ResellTicket
  rw [h]

theorem resellTicket_notSold {s : Store} {k : String} (p : String) {t : Ticket}
    (h : s k = some (Entity.ticket t)) (hst : t.Status ≠ Sold) :
    ResellTicket s k p = (Except.error (ChainErr.invalidState k), s) := by
  unfold ResellTicket
  rw [h]
  simp only [bytesToTicket]
  rw [if_pos hst]

theorem resellTicket_sold {s : Store} {k : String} (p : String) {t : Ticket}
    (h : s k = some (Entity.ticket t)) (hst : t.Status = Sold) :
    ResellTicket s k p =
      (Except.ok (), putState s k (Entity.ticket ⟨t.ID, t.EventID, Resold, p⟩)) := by
  unfold ResellTicket
  rw [h]
  simp only [bytesToTicket]
  rw [if_neg (not_not_intro hst)]

/-! ## UseTicket characterization -/

theorem useLoop_mem {s : Store} {t : Ticket} (k e : String) (ms : List String)
    (hm : t.ID ∈ ms) :
    useLoop s t k e ms =
      (Except.ok (), putState s t.ID (Entity.ticket { t with Status := Used })) := by
  induction ms with
  | nil => cases hm
  | cons m rest ih =>
    unfold useLoop
    by_cases h : m = t.ID
    · subst h
      rw [if_pos rfl]
    · rw [if_neg h]
      exact ih ((List.mem_cons.mp hm).resolve_left fun hh => h hh.symm)

theorem useLoop_not_mem {s : Store} {t : Ticket} (k e : String) (ms : List String)
    (hm : t.ID ∉ ms) :
    useLoop s t k e ms = (Except.error (ChainErr.membership k e), s) := by
  induction ms with
  | nil => rfl
  | cons m rest ih =>
    unfold useLoop
    rw [if_neg fun h => hm (by rw [← h]; exact List.mem_cons_self m rest)]
    exact ih fun h => hm (List.mem_cons_of_mem m h)

theorem useTicket_absent {s : Store} {k : String} (e : String) (h : s k = none) :
    UseTicket s k e = (Except.error (ChainErr.notFound k), s) := by
  unfold UseTicket
  rw [h]

theorem useTicket_badStatus {s : Store} {k : String} (e : String) {t : Ticket}
    (h : s k = some (Entity.ticket t)) (hst : t.Status ≠ Sold ∧ t.Status ≠ Resold) :
    UseTicket s k e = (Except.error (ChainErr.invalidState k), s) := by
  unfold UseTicket
  rw [h]
  simp only [bytesToTicket]
  rw [if_pos hst]

theorem useTicket_eventAbsent {s : Store} {k e : String} {t : Ticket}
    (h : s k = some (Entity.ticket t)) (hst : t.Status = Sold ∨ t.Status = Resold)
    (he : s e = none) :
    UseTicket s k e = (Except.error (ChainErr.notFound e), s) := by
  unfold UseTicket
  rw [h]
  simp only [bytesToTicket]
  rw [if_neg (by rw [not_and_or, not_not, not_not]; exact hst)]
  rw [he]

theorem useTicket_success {s : Store} {k e : String} {t : Ticket} {ev : Event}
    (h : s k = some (Entity.ticket t)) (hst : t.Status = Sold ∨ t.Status = Resold)
    (he : s e = some (Entity.event ev)) (hmem : t.ID ∈ ev.Tickets) :
    UseTicket s k e =
      (Except.ok (), putState s t.ID (Entity.ticket { t with Status := Used })) := by
  unfold UseTicket
  rw [h]
  simp only [bytesToTicket]
  rw [if_neg (by rw [not_and_or, not_not, not_not]; exact hst)]
  rw [he]
  simp only [bytesToEvent]
  exact useLoop_mem k e ev.Tickets hmem

theorem useTicket_notMember {s : Store} {k e : String} {t : Ticket} {ev : Event}
    (h : s k = some (Entity.ticket t)) (hst : t.Status = Sold ∨ t.Status = Resold)
    (he : s e = some (Entity.event ev)) (hmem : t.ID ∉ ev.Tickets) :
    UseTicket s k e = (Except.error (ChainErr.membership k e), s) := by
  unfold UseTicket
  rw [h]
  simp only [bytesToTicket]
  rw [if_neg (by rw [not_and_or, not_not, not_not]; exact hst)]
  rw [he]
  simp only [bytesToEvent]
  exact useLoop_not_mem k e ev.Tickets hmem

/-! ## ListAvailableTickets characterization -/

theorem listAvailable_absent {s : Store} {e : String} (he : s e = none) :
    ListAvailableTickets s e = Except.error (ChainErr.notFound e) := by
  unfold ListAvailableTickets
  rw [he]

theorem listAvailable_event {s : Store} {e : String} {ev : Event}
    (he : s e = some (Entity.event ev)) :
    ListAvailableTickets s e = listLoop s ev.Tickets := by
  unfold ListAvailableTickets
  rw [he]
  simp only [bytesToEvent]

theorem listLoop_wellKeyed {s : Store} (ms : List String)
    (hws : ∀ m ∈ ms, ∃ t, s m = some (Entity.ticket t) ∧ t.ID = m) :
    listLoop s ms = Except.ok (ms.filter fun m =>
      match s m with
      | some (Entity.ticket t) => t.Status == Available
      | _ => false) := by
  induction ms with
  | nil => rfl
  | cons m rest ih =>
    obtain ⟨t, hm, hid⟩ := hws m (List.mem_cons_self m rest)
    unfold listLoop
    rw [hm]
    simp only [bytesToTicket]
    rw [ih fun x hx => hws x (List.mem_cons_of_mem m hx)]
    rw [List.filter_cons, hm]
    by_cases hst : t.Status = Available
    · simp [hst, hid]
    · simp [hst]

theorem listLoop_absentMember {s : Store} (ms : List String) (m : String)
    (hm : m ∈ ms) (habs : s m = none) :
    ∃ er, listLoop s ms = Except.error er := by
  induction ms with
  | nil => cases hm
  | cons a rest ih =>
    unfold listLoop
    cases ha : bytesToTicket (s a) with
    | error er => exact ⟨er, rfl⟩
    | ok t =>
      have hmr : m ∈ rest := by
        rcases List.mem_cons.mp hm with h | h
        · rw [← h, habs] at ha
          simp [bytesToTicket] at ha
        · exact h
      obtain ⟨er, her⟩ := ih hmr
      rw [her]
      exact ⟨er, rfl⟩

/-! ## Operation-level invariant preservation -/

theorem sellTicket_inv {s : Store} (hs : StoreInv s) {p : String} (hp : p ≠ "") (k : String) :
    StoreInv (SellTicket s k p).2 := by
  unfold SellTicket
  cases hk : s k with
  | none => exact hs
  | some e =>
    cases e with
    | participant q => exact hs
    | event ev => exact hs
    | ticket t =>
      simp only [bytesToTicket]
      by_cases hst : t.Status = Available
      · rw [if_neg (not_not_intro hst)]
        exact storeInv_put_ticket hs ⟨fun _ => Or.inl rfl, fun _ => hp⟩ k
      · rw [if_pos hst]
        exact hs

theorem resellTicket_inv {s : Store} (hs : StoreInv s) {p : String} (hp : p ≠ "") (k : String) :
    StoreInv (ResellTicket s k p).2 := by
  unfold ResellTicket
  cases hk : s k with
  | none => exact hs
  | some e =>
    cases e with
    | participant q => exact hs
    | event ev => exact hs
    | ticket t =>
      simp only [bytesToTicket]
      by_cases hst : t.Status = Sold
      · rw [if_neg (not_not_intro hst)]
        exact storeInv_put_ticket hs ⟨fun _ => Or.inr (Or.inl rfl), fun _ => hp⟩ k
      · rw [if_pos hst]
        exact hs

theorem useLoop_inv {s : Store} (hs : StoreInv s) {t : Ticket}
    (howner : t.Owner ≠ "") (k e : String) (ms : List String) :
    StoreInv (useLoop s t k e ms).2 := by
  induction ms with
  | nil => exact hs
  | cons m rest ih =>
    unfold useLoop
    by_cases h : m = t.ID
    · rw [if_pos h]
      exact @storeInv_put_ticket s hs { t with Status := Used }
        ⟨fun _ => Or.inr (Or.inr rfl), fun _ => howner⟩ m
    · rw [if_neg h]
      exact ih

theorem useTicket_inv {s : Store} (hs : StoreInv s) (k e : String) :
    StoreInv (UseTicket s k e).2 := by
  unfold UseTicket
  cases hk : s k with
  | none => exact hs
  | some te =>
    cases te with
    | participant q => exact hs
    | event ev => exact hs
    | ticket t =>
      simp only [bytesToTicket]
      by_cases hst : t.Status ≠ Sold ∧ t.Status ≠ Resold
      · rw [if_pos hst]
        exact hs
      · rw [if_neg hst]
        rw [not_and_or, not_not, not_not] at hst
        have howner : t.Owner ≠ "" :=
          (hs k t hk).mpr (hst.elim Or.inl fun h => Or.inr (Or.inl h))
        cases he : s e with
        | none => exact hs
        | some ee =>
          cases ee with
          | participant q => exact useLoop_inv hs howner k e _
          | event ev => exact useLoop_inv hs howner k e _
          | ticket u => exact useLoop_inv hs howner k e _

/-! ## Concrete stores used by counterexamples and witnesses -/

/-- Store holding one Available ticket T1 (owner empty) and nothing else. -/
def sAvail : Store := fun k =>
  if k = "T1" then some (Entity.ticket ⟨"T1", "E1", Available, ""⟩) else none

/-- Store holding one Sold ticket T1 owned by alice and nothing else. -/
def sSold : Store := fun k =>
  if k = "T1" then some (Entity.ticket ⟨"T1", "E1", Sold, "alice"⟩) else none

/-- Store holding one Resold ticket T1 owned by bob and nothing else. -/
def sResold : Store := fun k =>
  if k = "T1" then some (Entity.ticket ⟨"T1", "E1", Resold, "bob"⟩) else none

/-- Store holding one Used ticket T1 owned by bob and nothing else. -/
def sUsed : Store := fun k =>
  if k = "T1" then some (Entity.ticket ⟨"T1", "E1", Used, "bob"⟩) else none

/-- Store where event E1 lists member key K, but the ticket stored under
key K carries ID field X (stored ID differs from its store key). -/
def sAlias : Store := fun k =>
  if k = "E1" then some (Entity.event ⟨"E1", "Concert", "host", "date", "loc", ["K"]⟩)
  else if k = "K" then some (Entity.ticket ⟨"X", "E1", Available, ""⟩)
  else none

/-- Store where event E1 lists member X and the Sold ticket with ID field
X is stored under the different key K. -/
def sAliasSold : Store := fun k =>
  if k = "E1" then some (Entity.event ⟨"E1", "Concert", "host", "date", "loc", ["X"]⟩)
  else if k = "K" then some (Entity.ticket ⟨"X", "E1", Sold, "alice"⟩)
  else none

/-- Well-keyed store: event E1 lists T1 (Available) and T2 (Sold), each
stored under a key equal to its ID field. -/
def sWell : Store := fun k =>
  if k = "E1" then some (Entity.event ⟨"E1", "Concert", "host", "date", "loc", ["T1", "T2"]⟩)
  else if k = "T1" then some (Entity.ticket ⟨"T1", "E1", Available, ""⟩)
  else if k = "T2" then some (Entity.ticket ⟨"T2", "E1", Sold, "alice"⟩)
  else none

theorem sAvail_inv : StoreInv sAvail := by
  intro k t h
  unfold sAvail at h
  split at h
  · simp only [Option.some.injEq, Entity.ticket.injEq] at h
    rw [← h]
    decide
  · exact Option.noConfusion h

/-! ## Claims -/

/-- Claim C1, counterexample: the invariant is not preserved for all
argument values. Starting from a store satisfying the invariant (one
Available ticket with empty owner), SellTicket with an empty participant
ID succeeds and stores a Sold ticket whose owner is empty, so the
invariant fails after the operation. -/
theorem C1_counterexample :
    StoreInv sAvail ∧
    (SellTicket sAvail "T1" "").1 = Except.ok () ∧
    ¬ StoreInv (SellTicket sAvail "T1" "").2 := by
  refine ⟨sAvail_inv, by decide, fun hinv => ?_⟩
  have h := hinv "T1" ⟨"T1", "E1", Sold, ""⟩ (by decide)
  exact absurd h (by decide)

/-- Claim C1 (amended): every public operation preserves the invariant
that a stored ticket's owner is non-empty iff its status is Sold, Resold
or Used, provided the participant or new-owner ID passed to SellTicket
and ResellTicket is non-empty; with an empty ID those two operations
break the invariant (see the counterexample). ListAvailableTickets
performs no writes, so it preserves the invariant trivially. -/
theorem C1_invariant_preserved (s : Store) (hs : StoreInv s) :
    (∀ pid n ty, StoreInv (RegisterParticipant s pid n ty).2) ∧
    (∀ eid n h d l, StoreInv (CreateEvent s eid n h d l).2) ∧
    (∀ k p, p ≠ "" → StoreInv (SellTicket s k p).2) ∧
    (∀ k p, p ≠ "" → StoreInv (ResellTicket s k p).2) ∧
    (∀ k e, StoreInv (UseTicket s k e).2) :=
  ⟨fun pid n ty => storeInv_put_participant hs pid ⟨pid, n, ty⟩,
   fun eid n h d l => storeInv_put_event hs eid ⟨eid, n, h, d, l, []⟩,
   fun k _ hp => sellTicket_inv hs hp k,
   fun k _ hp => resellTicket_inv hs hp k,
   fun k e => useTicket_inv hs k e⟩

/-- Claim C1 witness: the amended invariant theorem applied to a concrete
store and a non-empty buyer. -/
theorem C1_invariant_preserved_witness :
    StoreInv sAvail ∧ StoreInv (SellTicket sAvail "T1" "alice").2 :=
  ⟨sAvail_inv, (C1_invariant_preserved sAvail sAvail_inv).2.2.1 "T1" "alice" (by decide)⟩

/-- Claim C2: Used is terminal. For a stored ticket whose status is Used,
every SellTicket, ResellTicket and UseTicket invocation on that ticket's
key fails with InvalidStateError and returns the store unchanged. -/
theorem C2_used_terminal (s : Store) (k : String) (t : Ticket)
    (ht : s k = some (Entity.ticket t)) (hu : t.Status = Used) :
    (∀ p, SellTicket s k p = (Except.error (ChainErr.invalidState k), s)) ∧
    (∀ p, ResellTicket s k p = (Except.error (ChainErr.invalidState k), s)) ∧
    (∀ e, UseTicket s k e = (Except.error (ChainErr.invalidState k), s)) :=
  ⟨fun p => sellTicket_notAvailable p ht (by rw [hu]; decide),
   fun p => resellTicket_notSold p ht (by rw [hu]; decide),
   fun e => useTicket_badStatus e ht ⟨by rw [hu]; decide, by rw [hu]; decide⟩⟩

/-- Claim C2 witness: the terminality theorem applied to a concrete store
holding a Used ticket. -/
theorem C2_used_terminal_witness :
    sUsed "T1" = some (Entity.ticket ⟨"T1", "E1", Used, "bob"⟩) ∧
    SellTicket sUsed "T1" "alice" = (Except.error (ChainErr.invalidState "T1"), sUsed) ∧
    ResellTicket sUsed "T1" "alice" = (Except.error (ChainErr.invalidState "T1"), sUsed) ∧
    UseTicket sUsed "T1" "E1" = (Except.error (ChainErr.invalidState "T1"), sUsed) := by
  have h := C2_used_terminal sUsed "T1" ⟨"T1", "E1", Used, "bob"⟩ (by decide) rfl
  exact ⟨by decide, h.1 "alice", h.2.1 "alice", h.2.2 "E1"⟩

/-- Claim C3: SellTicket fails with NotFoundError when the key is absent,
fails with InvalidStateError when the stored ticket's status is not
Available (returning the store unchanged), and otherwise succeeds,
writing back the same ticket with status Sold and owner set to the buyer
(ID and eventID fields unchanged). -/
theorem C3_sellTicket_spec (s : Store) (k p : String) :
    (s k = none → SellTicket s k p = (Except.error (ChainErr.notFound k), s)) ∧
    (∀ t, s k = some (Entity.ticket t) →
      (t.Status ≠ Available →
        SellTicket s k p = (Except.error (ChainErr.invalidState k), s)) ∧
      (t.Status = Available →
        SellTicket s k p =
          (Except.ok (), putState s k (Entity.ticket ⟨t.ID, t.EventID, Sold, p⟩)))) :=
  ⟨fun h => sellTicket_absent p h,
   fun _ ht => ⟨fun hst => sellTicket_notAvailable p ht hst,
                fun hst => sellTicket_available p ht hst⟩⟩

/-- Claim C3 witness: selling a concrete Available ticket succeeds and
writes back Sold with the buyer as owner. -/
theorem C3_sellTicket_spec_witness :
    sAvail "T1" = some (Entity.ticket ⟨"T1", "E1", Available, ""⟩) ∧
    SellTicket sAvail "T1" "alice" =
      (Except.ok (), putState sAvail "T1" (Entity.ticket ⟨"T1", "E1", Sold, "alice"⟩)) :=
  ⟨by decide,
   ((C3_sellTicket_spec sAvail "T1" "alice").2 ⟨"T1", "E1", Available, ""⟩ (by decide)).2 rfl⟩

/-- Claim C4, counterexample: ListAvailableTickets does not return the
sequence entries; it returns the stored tickets' ID fields. With event E1
listing member key K, where the Available ticket stored under K carries
ID field X, the spec-side reading (sequence entries with Available
status) gives the list holding K, but the code returns the list holding
X. -/
theorem C4_counterexample :
    sAlias "E1" = some (Entity.event ⟨"E1", "Concert", "host", "date", "loc", ["K"]⟩) ∧
    specListAvailable sAlias ⟨"E1", "Concert", "host", "date", "loc", ["K"]⟩ = ["K"] ∧
    ListAvailableTickets sAlias "E1" = Except.ok ["X"] ∧
    ListAvailableTickets sAlias "E1" ≠
      Except.ok (specListAvailable sAlias ⟨"E1", "Concert", "host", "date", "loc", ["K"]⟩) :=
  ⟨by decide, by decide, by decide, by decide⟩

/-- Claim C4 (amended): ListAvailableTickets fails with NotFoundError
when the event is absent; when every listed member key holds a ticket
whose stored ID field equals that key, it returns exactly the sequence
entries whose stored status is Available, in sequence order; and it
fails (rather than silently skipping) when a listed member key is absent
from the store. Without the well-keyed hypothesis the code returns the
stored ID fields, which can differ from the sequence entries (see the
counterexample). -/
theorem C4_listAvailable_amended (s : Store) (eventID : String) :
    (s eventID = none →
      ListAvailableTickets s eventID = Except.error (ChainErr.notFound eventID)) ∧
    (∀ ev, s eventID = some (Entity.event ev) →
      ((∀ m ∈ ev.Tickets, ∃ t, s m = some (Entity.ticket t) ∧ t.ID = m) →
        ListAvailableTickets s eventID = Except.ok (specListAvailable s ev)) ∧
      (∀ m ∈ ev.Tickets, s m = none →
        ∃ er, ListAvailableTickets s eventID = Except.error er)) :=
  ⟨fun h => listAvailable_absent h,
   fun ev hev =>
     ⟨fun hws => by
        rw [listAvailable_event hev]
        exact listLoop_wellKeyed ev.Tickets hws,
      fun m hm habs => by
        rw [listAvailable_event hev]
        exact listLoop_absentMember ev.Tickets m hm habs⟩⟩

/-- Claim C4 witness: on a well-keyed store where E1 lists T1 (Available)
and T2 (Sold), the query returns exactly the Available subsequence. -/
theorem C4_listAvailable_amended_witness :
    sWell "E1" = some (Entity.event ⟨"E1", "Concert", "host", "date", "loc", ["T1", "T2"]⟩) ∧
    ListAvailableTickets sWell "E1" =
      Except.ok (specListAvailable sWell ⟨"E1", "Concert", "host", "date", "loc", ["T1", "T2"]⟩) ∧
    specListAvailable sWell ⟨"E1", "Concert", "host", "date", "loc", ["T1", "T2"]⟩ = ["T1"] :=
  ⟨by decide,
   ((C4_listAvailable_amended sWell "E1").2
      ⟨"E1", "Concert", "host", "date", "loc", ["T1", "T2"]⟩ (by decide)).1
     (by
       intro m hm
       fin_cases hm
       · exact ⟨⟨"T1", "E1", Available, ""⟩, by decide, by decide⟩
       · exact ⟨⟨"T2", "E1", Sold, "alice"⟩, by decide, by decide⟩),
   by decide⟩

/-- Claim C5, counterexample: with an Available ticket at T1 and no
record at E1, UseTicket fails with InvalidStateError for the ticket's
status, not with NotFoundError for the absent event — the status check
runs before the event is read. -/
theorem C5_counterexample :
    (sAvail "T1").isSome = true ∧
    sAvail "E1" = none ∧
    UseTicket sAvail "T1" "E1" = (Except.error (ChainErr.invalidState "T1"), sAvail) ∧
    (UseTicket sAvail "T1" "E1").1 ≠ Except.error (ChainErr.notFound "E1") :=
  ⟨rfl, rfl, rfl, by decide⟩

/-- Claim C5 (amended): when the ticket exists and the event is absent,
UseTicket fails with NotFoundError for the event only if the ticket's
status is Sold or Resold; for any other status it fails first with
InvalidStateError for the ticket, the event never being read. Either
way the store is unchanged. -/
theorem C5_useTicket_event_absent (s : Store) (k e : String) (t : Ticket)
    (ht : s k = some (Entity.ticket t)) (he : s e = none) :
    ((t.Status = Sold ∨ t.Status = Resold) →
      UseTicket s k e = (Except.error (ChainErr.notFound e), s)) ∧
    (t.Status ≠ Sold ∧ t.Status ≠ Resold →
      UseTicket s k e = (Except.error (ChainErr.invalidState k), s)) :=
  ⟨fun hst => useTicket_eventAbsent ht hst he,
   fun hst => useTicket_badStatus e ht hst⟩

/-- Claim C5 witness: a Sold ticket redeemed against an absent event key
fails with NotFoundError for the event. -/
theorem C5_useTicket_event_absent_witness :
    sSold "T1" = some (Entity.ticket ⟨"T1", "E1", Sold, "alice"⟩) ∧
    sSold "E9" = none ∧
    UseTicket sSold "T1" "E9" = (Except.error (ChainErr.notFound "E9"), sSold) :=
  ⟨by decide, rfl,
   (C5_useTicket_event_absent sSold "T1" "E9" ⟨"T1", "E1", Sold, "alice"⟩
      (by decide) rfl).1 (Or.inl rfl)⟩

/-- Claim C6: ResellTicket succeeds only when the stored status is
exactly Sold; on a Resold or Used ticket it fails with InvalidStateError
and returns the store unchanged; on success the status becomes Resold
and the owner becomes the new owner (other fields unchanged). -/
theorem C6_resellTicket_spec (s : Store) (k p : String) (t : Ticket)
    (ht : s k = some (Entity.ticket t)) :
    (t.Status = Resold ∨ t.Status = Used →
      ResellTicket s k p = (Except.error (ChainErr.invalidState k), s)) ∧
    (t.Status = Sold →
      ResellTicket s k p =
        (Except.ok (), putState s k (Entity.ticket ⟨t.ID, t.EventID, Resold, p⟩))) ∧
    ((ResellTicket s k p).1 = Except.ok () → t.Status = Sold) := by
  refine ⟨fun hst => resellTicket_notSold p ht ?_,
          fun hst => resellTicket_sold p ht hst,
          fun hok => ?_⟩
  · rcases hst with h | h <;> rw [h] <;> decide
  · by_cases hst : t.Status = Sold
    · exact hst
    · rw [resellTicket_notSold p ht hst] at hok
      simp at hok

/-- Claim C6 witness: reselling a concrete Sold ticket succeeds, writing
status Resold and the new owner. -/
theorem C6_resellTicket_spec_witness :
    sSold "T1" = some (Entity.ticket ⟨"T1", "E1", Sold, "alice"⟩) ∧
    ResellTicket sSold "T1" "carol" =
      (Except.ok (), putState sSold "T1" (Entity.ticket ⟨"T1", "E1", Resold, "carol"⟩)) :=
  ⟨by decide,
   (C6_resellTicket_spec sSold "T1" "carol" ⟨"T1", "E1", Sold, "alice"⟩ (by decide)).2.1 rfl⟩

/-- Claim C7, counterexample: a ticket in the Resold state cannot be
resold again — ResellTicket on a concrete Resold ticket fails with
InvalidStateError and does not succeed, contradicting the lifecycle
sentence "optionally Resold any number of times". -/
theorem C7_counterexample :
    sResold "T1" = some (Entity.ticket ⟨"T1", "E1", Resold, "bob"⟩) ∧
    ResellTicket sResold "T1" "carol" = (Except.error (ChainErr.invalidState "T1"), sResold) ∧
    (ResellTicket sResold "T1" "carol").1 ≠ Except.ok () :=
  ⟨rfl, rfl, by decide⟩

/-- Claim C7 (amended): a ticket may be resold at most once — for every
stored ticket whose status is Resold, ResellTicket fails with
InvalidStateError and leaves the store unchanged; the lifecycle is
Available, then Sold, then optionally Resold once, then Used. -/
theorem C7_resold_not_resellable (s : Store) (k p : String) (t : Ticket)
    (ht : s k = some (Entity.ticket t)) (hr : t.Status = Resold) :
    ResellTicket s k p = (Except.error (ChainErr.invalidState k), s) :=
  resellTicket_notSold p ht (by rw [hr]; decide)

/-- Claim C7 witness: the amended theorem applied to a concrete Resold
ticket. -/
theorem C7_resold_not_resellable_witness :
    sResold "T1" = some (Entity.ticket ⟨"T1", "E1", Resold, "bob"⟩) ∧
    ResellTicket sResold "T1" "dave" = (Except.error (ChainErr.invalidState "T1"), sResold) :=
  ⟨by decide,
   C7_resold_not_resellable sResold "T1" "dave" ⟨"T1", "E1", Resold, "bob"⟩ (by decide) rfl⟩

/-- Claim C8: a failed SellTicket mutates nothing. Selling an Available
ticket to alice succeeds; a second SellTicket with bob then fails with
InvalidStateError, the returned store is the pre-call store, and the
ticket's record (owner alice included) is exactly as before the failed
call. -/
theorem C8_double_sell (s : Store) (k : String) (t : Ticket)
    (ht : s k = some (Entity.ticket t)) (ha : t.Status = Available) :
    (SellTicket s k "alice").1 = Except.ok () ∧
    (SellTicket s k "alice").2 k = some (Entity.ticket ⟨t.ID, t.EventID, Sold, "alice"⟩) ∧
    SellTicket (SellTicket s k "alice").2 k "bob" =
      (Except.error (ChainErr.invalidState k), (SellTicket s k "alice").2) ∧
    (SellTicket (SellTicket s k "alice").2 k "bob").2 k =
      some (Entity.ticket ⟨t.ID, t.EventID, Sold, "alice"⟩) := by
  have h1 := sellTicket_available "alice" ht ha
  have hk1 : (SellTicket s k "alice").2 k =
      some (Entity.ticket ⟨t.ID, t.EventID, Sold, "alice"⟩) := by
    rw [h1]
    exact putState_same s k _
  have h2 : SellTicket (SellTicket s k "alice").2 k "bob" =
      (Except.error (ChainErr.invalidState k), (SellTicket s k "alice").2) :=
    sellTicket_notAvailable "bob" hk1 (show Sold ≠ Available by decide)
  exact ⟨by rw [h1], hk1, h2, by rw [h2]; exact hk1⟩

/-- Claim C8 witness: the double-sell theorem applied to a concrete
Available ticket. -/
theorem C8_double_sell_witness :
    sAvail "T1" = some (Entity.ticket ⟨"T1", "E1", Available, ""⟩) ∧
    SellTicket (SellTicket sAvail "T1" "alice").2 "T1" "bob" =
      (Except.error (ChainErr.invalidState "T1"), (SellTicket sAvail "T1" "alice").2) ∧
    (SellTicket (SellTicket sAvail "T1" "alice").2 "T1" "bob").2 "T1" =
      some (Entity.ticket ⟨"T1", "E1", Sold, "alice"⟩) := by
  have h := C8_double_sell sAvail "T1" ⟨"T1", "E1", Available, ""⟩ (by decide) rfl
  exact ⟨by decide, h.2.2.1, h.2.2.2⟩

/-- Claim C9: CreateEvent always succeeds with no existence check: it
writes an Event record with the given fields and an empty tickets
sequence under the id, overwriting whatever record was stored there. -/
theorem C9_createEvent_overwrites (s : Store) (id n h d l : String) :
    CreateEvent s id n h d l =
      (Except.ok (), putState s id (Entity.event ⟨id, n, h, d, l, []⟩)) ∧
    (CreateEvent s id n h d l).2 id = some (Entity.event ⟨id, n, h, d, l, []⟩) :=
  ⟨rfl, putState_same s id _⟩

/-- Claim C10: UseTicket checks membership of, and writes back under, the
decoded record's ID field rather than the ticketID argument: with the
record's ID a member of the event's sequence it succeeds and writes the
Used record under that ID; with the record's ID not a member it fails
with MembershipError regardless of the lookup key's own membership; and
when the record's ID differs from the lookup key, the record at the
lookup key is left untouched (never marked Used). -/
theorem C10_useTicket_record_id (s : Store) (k e : String) (t : Ticket) (ev : Event)
    (ht : s k = some (Entity.ticket t)) (hst : t.Status = Sold ∨ t.Status = Resold)
    (he : s e = some (Entity.event ev)) :
    (t.ID ∈ ev.Tickets →
      UseTicket s k e =
        (Except.ok (), putState s t.ID (Entity.ticket ⟨t.ID, t.EventID, Used, t.Owner⟩))) ∧
    (t.ID ∉ ev.Tickets →
      UseTicket s k e = (Except.error (ChainErr.membership k e), s)) ∧
    (t.ID ∈ ev.Tickets → t.ID ≠ k → (UseTicket s k e).2 k = s k) := by
  refine ⟨fun hm => useTicket_success ht hst he hm,
          fun hm => useTicket_notMember ht hst he hm,
          fun hm hne => ?_⟩
  rw [useTicket_success ht hst he hm]
  exact putState_other s t.ID k _ fun hh => hne hh.symm

/-- Claim C10 witness: the Sold ticket stored under key K with ID field X
is redeemed through key K against event E1 listing X: the Used record is
written under X and the record under K is unchanged. -/
theorem C10_useTicket_record_id_witness :
    sAliasSold "K" = some (Entity.ticket ⟨"X", "E1", Sold, "alice"⟩) ∧
    sAliasSold "E1" = some (Entity.event ⟨"E1", "Concert", "host", "date", "loc", ["X"]⟩) ∧
    UseTicket sAliasSold "K" "E1" =
      (Except.ok (), putState sAliasSold "X" (Entity.ticket ⟨"X", "E1", Used, "alice"⟩)) ∧
    (UseTicket sAliasSold "K" "E1").2 "K" = sAliasSold "K" := by
  have h := C10_useTicket_record_id sAliasSold "K" "E1" ⟨"X", "E1", Sold, "alice"⟩
    ⟨"E1", "Concert", "host", "date", "loc", ["X"]⟩ (by decide) (Or.inl rfl) (by decide)
  exact ⟨by decide, by decide, h.1 (by decide), h.2.2 (by decide) (by decide)⟩

end TicketBooking
